import Mathlib

/-!
Shallow embedding of the mochow-sdk-rust client library (baidu/mochow-sdk-rust).
Rust machine integers are modelled as `Nat` / `Int` with explicit range checks
where the code (serde) performs them; `f64` values are modelled as `Rat`
(finite doubles are rationals and round-trip exactly through decimal JSON).
JSON values are modelled by the inductive `Json`; serde's serialization of the
SDK's data types is embedded field by field following the `#[serde(...)]`
attributes in the source.
-/

namespace Mochow

/-- JSON value model: `int` holds numbers serialized from Rust integer types,
`dec` holds numbers serialized from Rust floating-point types. -/
inductive Json where
  | null : Json
  | bool (b : Bool) : Json
  | int (n : Int) : Json
  | dec (q : Rat) : Json
  | str (s : String) : Json
  | arr (elems : List Json) : Json
  | obj (fields : List (String × Json)) : Json
deriving Repr

/-- First-match association lookup used to model serde's field matching on a
JSON object (the serialized objects in this development carry no duplicate keys). -/
def Json.lookup (key : String) : List (String × Json) → Option Json
  | [] => none
  | (k, v) :: rest => if k = key then some v else Json.lookup key rest

/-- src/mochow/api/enums.rs: `AutoBuildPolicyType` with serde renames and aliases. -/
inductive AutoBuildPolicyType where
  | TIMING
  | PERIODICAL
  | ROW_COUNT_INCREMENT
deriving Repr, DecidableEq

/-- src/mochow/api/enums.rs: `FieldType` with serde renames. -/
inductive FieldType where
  | BOOL
  | INT8
  | UINT8
  | Int16
  | Uint16
  | INT32
  | UINT32
  | INT64
  | UINT64
  | FLOAT
  | DOUBLE
  | DATE
  | DATETIME
  | TIMESTAMP
  | STRING
  | BINARY
  | UUID
  | TEXT
  | TEXT_GBK
  | TEXT_GB18030
  | FLOAT_VECTOR
deriving Repr, DecidableEq

/-- src/mochow/api/enums.rs: `IndexState`. -/
inductive IndexState where
  | INVALID
  | BUILDING
  | NORMAL
deriving Repr, DecidableEq

/-- src/mochow/api/enums.rs: `TableState`. -/
inductive TableState where
  | INVALID
  | CREATING
  | NORMAL
  | DELETING
deriving Repr, DecidableEq

/-- src/mochow/api/enums.rs: `IndexType` (variant `SECONDARY_INDEX` renames to "SECONDARY"). -/
inductive IndexType where
  | FLAT
  | HNSW
  | HNSWPQ
  | PUCK
  | SECONDARY_INDEX
deriving Repr, DecidableEq

/-- src/mochow/api/enums.rs: `MetricType`. -/
inductive MetricType where
  | L2
  | IP
  | COSINE
deriving Repr, DecidableEq

/-- src/mochow/api/enums.rs: `PartitionType` (only HASH). -/
inductive PartitionType where
  | HASH
deriving Repr, DecidableEq

/-- src/mochow/api/enums.rs: `ReadConsistency`. -/
inductive ReadConsistency where
  | EVENTUAL
  | STRONG
deriving Repr, DecidableEq

/-- src/mochow/api/enums.rs: `ServerErrorCode` symbolic error codes. -/
inductive ServerErrorCode where
  | UNKNOWN
  | INTERNAL_ERROR
  | INVALID_PARAMETER
  | INVALID_HTTP_URL
  | INVALID_HTTP_HEADER
  | INVALID_HTTP_BODY
  | MISS_SSL_CERTIFICATES
  | USER_NOT_EXIST
  | USER_ALREADY_EXIST
  | ROLE_NOT_EXIST
  | ROLE_ALREADY_EXIST
  | AUTHENTICATION_FAILED
  | PERMISSION_DENIED
  | DB_NOT_EXIST
  | DB_ALREADY_EXIST
  | DB_TOO_MANY_TABLES
  | DB_NOT_EMPTY
  | INVALID_TABLE_SCHEMA
  | INVALID_PARTITION_PARAMETERS
  | TABLE_TOO_MANY_FIELDS
  | TABLE_TOO_MANY_FAMILIES
  | TABLE_TOO_MANY_PRIMARY_KEYS
  | TABLE_TOO_MANY_PARTITION_KEYS
  | TABLE_TOO_MANY_VECTOR_FIELDS
  | TABLE_TOO_MANY_INDEXES
  | DYNAMIC_SCHEMA_ERROR
  | TABLE_NOT_EXIST
  | TABLE_ALREADY_EXIST
  | INVALID_TABLE_STATE
  | TABLE_NOT_READY
  | ALIAS_NOT_EXIST
  | ALIAS_ALREADY_EXIST
  | FIELD_NOT_EXIST
  | FIELD_ALREADY_EXIST
  | VECTOR_FIELD_NOT_EXIST
  | INVALID_INDEX_SCHEMA
  | INDEX_NOT_EXIST
  | INDEX_ALREADY_EXIST
  | INDEX_DUPLICATED
  | INVALID_INDEX_STATE
  | PRIMARY_KEY_DUPLICATED
  | ROW_KEY_NOT_FOUND
deriving Repr, DecidableEq

/-- src/mochow/api/enums.rs lines 187-234: `impl From<i32> for ServerErrorCode`. -/
def ServerErrorCode.fromInt (value : Int) : ServerErrorCode :=
  match value with
  | 1 => ServerErrorCode.INTERNAL_ERROR
  | 2 => ServerErrorCode.INVALID_PARAMETER
  | 10 => ServerErrorCode.INVALID_HTTP_URL
  | 11 => ServerErrorCode.INVALID_HTTP_HEADER
  | 12 => ServerErrorCode.INVALID_HTTP_BODY
  | 13 => ServerErrorCode.MISS_SSL_CERTIFICATES
  | 20 => ServerErrorCode.USER_NOT_EXIST
  | 21 => ServerErrorCode.USER_ALREADY_EXIST
  | 22 => ServerErrorCode.ROLE_NOT_EXIST
  | 23 => ServerErrorCode.ROLE_ALREADY_EXIST
  | 24 => ServerErrorCode.AUTHENTICATION_FAILED
  | 25 => ServerErrorCode.PERMISSION_DENIED
  | 50 => ServerErrorCode.DB_NOT_EXIST
  | 51 => ServerErrorCode.DB_ALREADY_EXIST
  | 52 => ServerErrorCode.DB_TOO_MANY_TABLES
  | 53 => ServerErrorCode.DB_NOT_EMPTY
  | 60 => ServerErrorCode.INVALID_TABLE_SCHEMA
  | 61 => ServerErrorCode.INVALID_PARTITION_PARAMETERS
  | 62 => ServerErrorCode.TABLE_TOO_MANY_FIELDS
  | 63 => ServerErrorCode.TABLE_TOO_MANY_FAMILIES
  | 64 => ServerErrorCode.TABLE_TOO_MANY_PRIMARY_KEYS
  | 65 => ServerErrorCode.TABLE_TOO_MANY_PARTITION_KEYS
  | 66 => ServerErrorCode.TABLE_TOO_MANY_VECTOR_FIELDS
  | 67 => ServerErrorCode.TABLE_TOO_MANY_INDEXES
  | 68 => ServerErrorCode.DYNAMIC_SCHEMA_ERROR
  | 69 => ServerErrorCode.TABLE_NOT_EXIST
  | 70 => ServerErrorCode.TABLE_ALREADY_EXIST
  | 71 => ServerErrorCode.INVALID_TABLE_STATE
  | 72 => ServerErrorCode.TABLE_NOT_READY
  | 73 => ServerErrorCode.ALIAS_NOT_EXIST
  | 74 => ServerErrorCode.ALIAS_ALREADY_EXIST
  | 80 => ServerErrorCode.FIELD_NOT_EXIST
  | 81 => ServerErrorCode.FIELD_ALREADY_EXIST
  | 82 => ServerErrorCode.VECTOR_FIELD_NOT_EXIST
  | 90 => ServerErrorCode.INVALID_INDEX_SCHEMA
  | 91 => ServerErrorCode.INDEX_NOT_EXIST
  | 92 => ServerErrorCode.INDEX_ALREADY_EXIST
  | 93 => ServerErrorCode.INDEX_DUPLICATED
  | 94 => ServerErrorCode.INVALID_INDEX_STATE
  | 100 => ServerErrorCode.PRIMARY_KEY_DUPLICATED
  | 101 => ServerErrorCode.ROW_KEY_NOT_FOUND
  | _ => ServerErrorCode.UNKNOWN

/-- src/mochow/api/common.rs: `CommonResponse` error-envelope type. -/
structure CommonResponse where
  code : Int
  msg : String
deriving Repr, DecidableEq

/-- src/mochow/api/common.rs: `ServiceError` carried by `SdkError::ServiceError`. -/
structure ServiceError where
  status_code : Int
  request_id : String
  resp : CommonResponse
  server_code : ServerErrorCode
deriving Repr, DecidableEq

/-- src/error.rs: `SdkError`. Foreign error payloads (reqwest, anyhow) are
modelled by their rendered message strings. -/
inductive SdkError where
  | RequestError (msg : String)
  | RequestMiddlewareError (msg : String)
  | ServiceError (err : Mochow.ServiceError)
  | ParamsError (msg : String)
  | OtherError (msg : String)
deriving Repr, DecidableEq

/-- Discriminator for the `ParamsError` variant of `SdkError`. -/
def SdkError.isParamsError : SdkError → Bool
  | SdkError.ParamsError _ => true
  | _ => false

/-- src/auth/credentials.rs: `Credentials` value type. -/
structure Credentials where
  account : String
  api_key : String
  token : String
deriving Repr, DecidableEq

/-- src/auth/credentials.rs lines 27-44: `Credentials::new`. -/
def Credentials.new (account : String) (api_key : String) : Except SdkError Credentials :=
  if account.isEmpty then
    Except.error (SdkError.ParamsError "account should not be empty")
  else if api_key.isEmpty then
    Except.error (SdkError.ParamsError "api_key should not be empty")
  else
    Except.ok
      { account := account
        api_key := api_key
        token := "account=" ++ account ++ "&api_key=" ++ api_key }

/-- src/mochow/config.rs: `ClientConfiguration` (builder defaults: version "v1",
time_out_seconds 30, max_retries 3, empty user_agent). -/
structure ClientConfiguration where
  account : String
  api_key : String
  endpoint : String
  version : String
  time_out_seconds : Nat
  max_retries : Nat
  user_agent : String
deriving Repr, DecidableEq

/-- src/mochow/client.rs: `MochowClient` (the transport middleware stack is an
external collaborator and is not part of the state modelled here). -/
structure MochowClient where
  credential : Credentials
  configuration : ClientConfiguration
deriving Repr, DecidableEq

/-- Model of Rust `str::starts_with` as a prefix test on the character list
(Lean's own `String.startsWith` does not reduce in the kernel). -/
def starts_with (s pre : String) : Bool :=
  pre.data.isPrefixOf s.data

/-- src/mochow/client.rs lines 90-111: `MochowClient::new_with_configuration`. -/
def MochowClient.new_with_configuration (config : ClientConfiguration) :
    Except SdkError MochowClient :=
  if config.account.isEmpty || config.api_key.isEmpty || config.endpoint.isEmpty then
    Except.error (SdkError.ParamsError
      "account, apiKey and endpoint missing for creating mochow client")
  else
    match Credentials.new config.account config.api_key with
    | Except.error e => Except.error e
    | Except.ok auth =>
      let endpoint :=
        if starts_with config.endpoint "http://" || starts_with config.endpoint "https://" then
          config.endpoint
        else
          "http://" ++ config.endpoint
      Except.ok { credential := auth, configuration := { config with endpoint := endpoint } }

/-- src/mochow/client.rs lines 59-67: `MochowClient::new`, building the
configuration with the builder defaults. -/
def MochowClient.new (account : String) (api_key : String) (endpoint : String) :
    Except SdkError MochowClient :=
  MochowClient.new_with_configuration
    { account := account
      api_key := api_key
      endpoint := endpoint
      version := "v1"
      time_out_seconds := 30
      max_retries := 3
      user_agent := "" }

/-- HTTP methods actually issued by the SDK's request descriptors. -/
inductive HttpMethod where
  | POST
  | DELETE
deriving Repr, DecidableEq

/-- Method and URL of a REST request generated by an `IntoRequest` impl
(the JSON body is the serialized args struct, modelled separately by the
`encode...` functions where a claim concerns it). -/
structure RestRequest where
  method : HttpMethod
  url : String
deriving Repr, DecidableEq

/-- src/mochow/api/database.rs: `CreateDatabaseArgs`. -/
structure CreateDatabaseArgs where
  database : String
deriving Repr, DecidableEq

/-- src/mochow/api/database.rs: `DropDatabaseArgs`. -/
structure DropDatabaseArgs where
  database : String
deriving Repr, DecidableEq

/-- src/mochow/api/database.rs: `ListDatabaseArgs` (no fields). -/
structure ListDatabaseArgs where
deriving Repr, DecidableEq

/-- src/mochow/api/index.rs: `HNSWIndexParam` (`m`, `ef_construction` are u32). -/
structure HNSWIndexParam where
  m : Nat
  ef_construction : Nat
deriving Repr, DecidableEq

/-- src/mochow/api/index.rs: `HNSWPQIndexParam` (`sample_rate` is f64, modelled as Rat). -/
structure HNSWPQIndexParam where
  m : Nat
  ef_construction : Nat
  nsq : Nat
  sample_rate : Rat
deriving Repr, DecidableEq

/-- src/mochow/api/index.rs: `PUCKIndexParam`. -/
structure PUCKIndexParam where
  coarse_cluster_count : Nat
  fine_cluster_count : Nat
deriving Repr, DecidableEq

/-- src/mochow/api/index.rs lines 144-153: `VectorIndexParams`, an untagged enum
whose variants are tried in declaration order on deserialization. -/
inductive VectorIndexParams where
  | HNSWPQ (p : HNSWPQIndexParam)
  | HNSW (p : HNSWIndexParam)
  | PUCK (p : PUCKIndexParam)
deriving Repr, DecidableEq

/-- src/mochow/api/index.rs: `AutoBuildPolicy` (u64 counters as Nat, f64 ratio as Rat). -/
structure AutoBuildPolicy where
  policy_type : Option AutoBuildPolicyType
  timing : String
  period_in_second : Nat
  row_count_increment : Nat
  row_count_increment_ratio : Rat
deriving Repr, DecidableEq

/-- src/mochow/api/index.rs lines 41-103: `IndexSchema`. `state` and
`index_major_version` are populated from server responses; `state` carries
`skip_serializing`, `index_major_version` carries `skip_serializing_if Option::is_none`. -/
structure IndexSchema where
  index_name : String
  index_type : Option IndexType
  metric_type : Option MetricType
  params : Option VectorIndexParams
  field : String
  auto_build : Bool
  state : Option IndexState
  auto_build_policy : Option AutoBuildPolicy
  index_major_version : Option Nat
deriving Repr, DecidableEq

/-- src/mochow/api/table.rs: `FieldSchema` (`dimension` is Option of u32). -/
structure FieldSchema where
  field_name : String
  field_type : FieldType
  primary_key : Bool
  partition_key : Bool
  auto_increment : Bool
  not_null : Bool
  dimension : Option Nat
deriving Repr, DecidableEq

/-- src/mochow/api/table.rs lines 75-85: `TableSchema`. -/
structure TableSchema where
  fields : List FieldSchema
  indexes : List IndexSchema
deriving Repr, DecidableEq

/-- src/mochow/api/table.rs: `Partition`. -/
structure Partition where
  partition_type : PartitionType
  partition_num : Nat
deriving Repr, DecidableEq

/-- src/mochow/api/table.rs: `CreateTableArgs`. -/
structure CreateTableArgs where
  database : String
  table : String
  description : Option String
  replication : Nat
  partition : Partition
  enable_dynamic_field : Option Bool
  schema : TableSchema
deriving Repr, DecidableEq

/-- src/mochow/api/table.rs: `DropTableArgs`. -/
structure DropTableArgs where
  database : String
  table : String
deriving Repr, DecidableEq

/-- src/mochow/api/table.rs: `ListTableArgs`. -/
structure ListTableArgs where
  database : String
deriving Repr, DecidableEq

/-- src/mochow/api/table.rs: `DescriptTableArgs`. -/
structure DescriptTableArgs where
  database : String
  table : String
deriving Repr, DecidableEq

/-- src/mochow/api/table.rs: `AddFieldArgs`. -/
structure AddFieldArgs where
  database : String
  table : String
  schema : TableSchema
deriving Repr, DecidableEq

/-- src/mochow/api/table.rs: `StatsTableArgs`. -/
structure StatsTableArgs where
  database : String
  table : String
deriving Repr, DecidableEq

/-- src/mochow/api/table.rs: `AliasTableArgs`. -/
structure AliasTableArgs where
  database : String
  table : String
  «alias» : String
deriving Repr, DecidableEq

/-- src/mochow/api/table.rs: `UnaliasTableArgs`. -/
structure UnaliasTableArgs where
  database : String
  table : String
  «alias» : String
deriving Repr, DecidableEq

/-- src/mochow/api/index.rs: `CreateIndexArgs`. -/
structure CreateIndexArgs where
  database : String
  table : String
  indexes : List IndexSchema
deriving Repr, DecidableEq

/-- src/mochow/api/index.rs: `DescriptIndexArgs`. -/
structure DescriptIndexArgs where
  database : String
  table : String
  index_name : String
deriving Repr, DecidableEq

/-- src/mochow/api/index.rs: `RebuildIndexArgs`. -/
structure RebuildIndexArgs where
  database : String
  table : String
  index_name : String
deriving Repr, DecidableEq

/-- src/mochow/api/index.rs: `DeleteIndexArgs`. -/
structure DeleteIndexArgs where
  database : String
  table : String
  index_name : String
deriving Repr, DecidableEq

/-- src/mochow/api/index.rs: `ModifyIndexArgs`. -/
structure ModifyIndexArgs where
  database : String
  table : String
  index : IndexSchema
deriving Repr, DecidableEq

/-- src/mochow/api/row.rs: `InsertRowArgs<T>` (generic row payload type). -/
structure InsertRowArgs (T : Type) where
  database : String
  table : String
  rows : List T

/-- src/mochow/api/row.rs: `UpsertRowArgs<T>`. -/
structure UpsertRowArgs (T : Type) where
  database : String
  table : String
  rows : List T

/-- src/mochow/api/row.rs: `UpdateRowArgs` (serde_json::Value fields as Json). -/
structure UpdateRowArgs where
  database : String
  table : String
  primary_key : Json
  partition_ey : Option Json
  update : Json

/-- src/mochow/api/row.rs: `DeleteRowArgs` (the source spells the partition key
field `partition_ey`). -/
structure DeleteRowArgs where
  database : String
  table : String
  primary_key : Option Json
  partition_ey : Option Json
  filter : Option String

/-- src/mochow/api/row.rs: `QueryRowArgs`. -/
structure QueryRowArgs where
  database : String
  table : String
  primary_key : Json
  partition_key : Option Json
  projections : Option (List String)
  retrieve_vector : Option Bool
  read_consistency : Option ReadConsistency

/-- src/mochow/api/row.rs: `FLATSearchParams` (f64 distances as Rat). -/
structure FLATSearchParams where
  limit : Nat
  distance_far : Option Rat
  distance_near : Option Rat
deriving Repr, DecidableEq

/-- src/mochow/api/row.rs: `HNSWSearchParams`. -/
structure HNSWSearchParams where
  ef : Nat
  limit : Nat
  distance_far : Option Rat
  distance_near : Option Rat
  pruning : Bool
deriving Repr, DecidableEq

/-- src/mochow/api/row.rs: `HNSWPQSearchParams`. -/
structure HNSWPQSearchParams where
  ef : Nat
  limit : Nat
  distance_far : Option Rat
  distance_near : Option Rat
deriving Repr, DecidableEq

/-- src/mochow/api/row.rs: `PUCKSearchParams`. -/
structure PUCKSearchParams where
  search_coarse_count : Nat
  limit : Nat
  distance_far : Option Rat
  distance_near : Option Rat
deriving Repr, DecidableEq

/-- src/mochow/api/row.rs lines 221-228: `VectorSearchParams` (untagged). -/
inductive VectorSearchParams where
  | FLAT (p : FLATSearchParams)
  | HNSW (p : HNSWSearchParams)
  | HNSWPQ (p : HNSWPQSearchParams)
  | PUCK (p : PUCKSearchParams)
deriving Repr, DecidableEq

/-- src/mochow/api/row.rs: `AnnsSearchParams` (f64 vector as Rat list). -/
structure AnnsSearchParams where
  vector_field : String
  vector_floats : List Rat
  params : VectorSearchParams
  filter : Option String
deriving Repr, DecidableEq

/-- src/mochow/api/row.rs: `SearchRowsArgs`. -/
structure SearchRowsArgs where
  database : String
  table : String
  anns : AnnsSearchParams
  partition_ey : Option Json
  projections : Option (List String)
  retrieve_vector : Option Bool
  read_consistency : Option String

/-- src/mochow/api/row.rs: `SelectRowsArgs`. -/
structure SelectRowsArgs where
  database : String
  table : String
  filter : Option String
  marker : Option Json
  limit : Option Nat
  projections : Option (List String)
  read_consistency : Option String

/-- src/mochow/api/row.rs: `BatchAnnsSearchParams`. -/
structure BatchAnnsSearchParams where
  vector_field : String
  vector_floats : List (List Rat)
  params : VectorSearchParams
  filter : Option String
deriving Repr, DecidableEq

/-- src/mochow/api/row.rs: `BatchSearchRowsArgs`. -/
structure BatchSearchRowsArgs where
  database : String
  table : String
  anns : BatchAnnsSearchParams
  partition_ey : Option Json
  projections : Option (List String)
  retrieve_vector : Option Bool
  read_consistency : Option String

/-- src/mochow/api/database.rs lines 54-63: `IntoRequest for CreateDatabaseArgs`. -/
def CreateDatabaseArgs.into_request (_self : CreateDatabaseArgs)
    (config : ClientConfiguration) : RestRequest :=
  { method := HttpMethod.POST
    url := config.endpoint ++ "/" ++ config.version ++ "/database?create" }

/-- src/mochow/api/database.rs lines 65-74: `IntoRequest for DropDatabaseArgs`. -/
def DropDatabaseArgs.into_request (_self : DropDatabaseArgs)
    (config : ClientConfiguration) : RestRequest :=
  { method := HttpMethod.DELETE
    url := config.endpoint ++ "/" ++ config.version ++ "/database" }

/-- src/mochow/api/database.rs lines 76-85: `IntoRequest for ListDatabaseArgs`. -/
def ListDatabaseArgs.into_request (_self : ListDatabaseArgs)
    (config : ClientConfiguration) : RestRequest :=
  { method := HttpMethod.POST
    url := config.endpoint ++ "/" ++ config.version ++ "/database?list" }

/-- src/mochow/api/table.rs lines 265-274: `IntoRequest for CreateTableArgs`. -/
def CreateTableArgs.into_request (_self : CreateTableArgs)
    (config : ClientConfiguration) : RestRequest :=
  { method := HttpMethod.POST
    url := config.endpoint ++ "/" ++ config.version ++ "/table?create" }

/-- src/mochow/api/table.rs lines 276-285: `IntoRequest for DropTableArgs`. -/
def DropTableArgs.into_request (_self : DropTableArgs)
    (config : ClientConfiguration) : RestRequest :=
  { method := HttpMethod.DELETE
    url := config.endpoint ++ "/" ++ config.version ++ "/table" }

/-- src/mochow/api/table.rs lines 287-296: `IntoRequest for ListTableArgs`. -/
def ListTableArgs.into_request (_self : ListTableArgs)
    (config : ClientConfiguration) : RestRequest :=
  { method := HttpMethod.POST
    url := config.endpoint ++ "/" ++ config.version ++ "/table?list" }

/-- src/mochow/api/table.rs lines 298-307: `IntoRequest for DescriptTableArgs`. -/
def DescriptTableArgs.into_request (_self : DescriptTableArgs)
    (config : ClientConfiguration) : RestRequest :=
  { method := HttpMethod.POST
    url := config.endpoint ++ "/" ++ config.version ++ "/table?desc" }

/-- src/mochow/api/table.rs lines 309-318: `IntoRequest for AddFieldArgs`. -/
def AddFieldArgs.into_request (_self : AddFieldArgs)
    (config : ClientConfiguration) : RestRequest :=
  { method := HttpMethod.POST
    url := config.endpoint ++ "/" ++ config.version ++ "/table?addField" }

/-- src/mochow/api/table.rs lines 320-329: `IntoRequest for StatsTableArgs`. -/
def StatsTableArgs.into_request (_self : StatsTableArgs)
    (config : ClientConfiguration) : RestRequest :=
  { method := HttpMethod.POST
    url := config.endpoint ++ "/" ++ config.version ++ "/table?stats" }

/-- src/mochow/api/table.rs lines 331-340: `IntoRequest for AliasTableArgs`. -/
def AliasTableArgs.into_request (_self : AliasTableArgs)
    (config : ClientConfiguration) : RestRequest :=
  { method := HttpMethod.POST
    url := config.endpoint ++ "/" ++ config.version ++ "/table?alias" }

/-- src/mochow/api/table.rs lines 342-351: `IntoRequest for UnaliasTableArgs`. -/
def UnaliasTableArgs.into_request (_self : UnaliasTableArgs)
    (config : ClientConfiguration) : RestRequest :=
  { method := HttpMethod.POST
    url := config.endpoint ++ "/" ++ config.version ++ "/table?unalias" }

/-- src/mochow/api/index.rs lines 264-273: `IntoRequest for CreateIndexArgs`. -/
def CreateIndexArgs.into_request (_self : CreateIndexArgs)
    (config : ClientConfiguration) : RestRequest :=
  { method := HttpMethod.POST
    url := config.endpoint ++ "/" ++ config.version ++ "/index?create" }

/-- src/mochow/api/index.rs lines 275-284: `IntoRequest for DescriptIndexArgs`. -/
def DescriptIndexArgs.into_request (_self : DescriptIndexArgs)
    (config : ClientConfiguration) : RestRequest :=
  { method := HttpMethod.POST
    url := config.endpoint ++ "/" ++ config.version ++ "/index?desc" }

/-- src/mochow/api/index.rs lines 286-295: `IntoRequest for RebuildIndexArgs`. -/
def RebuildIndexArgs.into_request (_self : RebuildIndexArgs)
    (config : ClientConfiguration) : RestRequest :=
  { method := HttpMethod.POST
    url := config.endpoint ++ "/" ++ config.version ++ "/index?rebuild" }

/-- src/mochow/api/index.rs lines 297-306: `IntoRequest for DeleteIndexArgs`. -/
def DeleteIndexArgs.into_request (_self : DeleteIndexArgs)
    (config : ClientConfiguration) : RestRequest :=
  { method := HttpMethod.DELETE
    url := config.endpoint ++ "/" ++ config.version ++ "/index" }

/-- src/mochow/api/index.rs lines 308-317: `IntoRequest for ModifyIndexArgs`. -/
def ModifyIndexArgs.into_request (_self : ModifyIndexArgs)
    (config : ClientConfiguration) : RestRequest :=
  { method := HttpMethod.POST
    url := config.endpoint ++ "/" ++ config.version ++ "/index?modify" }

/-- src/mochow/api/row.rs lines 438-447: `IntoRequest for InsertRowArgs<T>`. -/
def InsertRowArgs.into_request {T : Type} (_self : InsertRowArgs T)
    (config : ClientConfiguration) : RestRequest :=
  { method := HttpMethod.POST
    url := config.endpoint ++ "/" ++ config.version ++ "/row?insert" }

/-- src/mochow/api/row.rs lines 449-458: `IntoRequest for UpsertRowArgs<T>`. -/
def UpsertRowArgs.into_request {T : Type} (_self : UpsertRowArgs T)
    (config : ClientConfiguration) : RestRequest :=
  { method := HttpMethod.POST
    url := config.endpoint ++ "/" ++ config.version ++ "/row?upsert" }

/-- src/mochow/api/row.rs lines 460-469: `IntoRequest for UpdateRowArgs`. -/
def UpdateRowArgs.into_request (_self : UpdateRowArgs)
    (config : ClientConfiguration) : RestRequest :=
  { method := HttpMethod.POST
    url := config.endpoint ++ "/" ++ config.version ++ "/row?update" }

/-- src/mochow/api/row.rs lines 471-480: `IntoRequest for DeleteRowArgs` —
note: POST with action `delete`, not the DELETE method. -/
def DeleteRowArgs.into_request (_self : DeleteRowArgs)
    (config : ClientConfiguration) : RestRequest :=
  { method := HttpMethod.POST
    url := config.endpoint ++ "/" ++ config.version ++ "/row?delete" }

/-- src/mochow/api/row.rs lines 482-491: `IntoRequest for QueryRowArgs`. -/
def QueryRowArgs.into_request (_self : QueryRowArgs)
    (config : ClientConfiguration) : RestRequest :=
  { method := HttpMethod.POST
    url := config.endpoint ++ "/" ++ config.version ++ "/row?query" }

/-- src/mochow/api/row.rs lines 493-502: `IntoRequest for SearchRowsArgs`. -/
def SearchRowsArgs.into_request (_self : SearchRowsArgs)
    (config : ClientConfiguration) : RestRequest :=
  { method := HttpMethod.POST
    url := config.endpoint ++ "/" ++ config.version ++ "/row?search" }

/-- src/mochow/api/row.rs lines 504-513: `IntoRequest for SelectRowsArgs`. -/
def SelectRowsArgs.into_request (_self : SelectRowsArgs)
    (config : ClientConfiguration) : RestRequest :=
  { method := HttpMethod.POST
    url := config.endpoint ++ "/" ++ config.version ++ "/row?select" }

/-- src/mochow/api/row.rs lines 515-524: `IntoRequest for BatchSearchRowsArgs`. -/
def BatchSearchRowsArgs.into_request (_self : BatchSearchRowsArgs)
    (config : ClientConfiguration) : RestRequest :=
  { method := HttpMethod.POST
    url := config.endpoint ++ "/" ++ config.version ++ "/row?batchSearch" }

/-- derive_builder's generated error type (one isomorphic copy is generated per
builder as `XxxArgsBuilderError`); `uninitializedField` carries the field name. -/
inductive BuilderError where
  | uninitializedField (field : String)
  | validationError (msg : String)
deriving Repr, DecidableEq

/-- Rendered message of a builder error (modelling the external crate's Display). -/
def BuilderError.message : BuilderError → String
  | BuilderError.uninitializedField f => "uninitialized field: " ++ f
  | BuilderError.validationError m => m

/-- derive_builder state for `CreateDatabaseArgs`: every field starts unset. -/
structure CreateDatabaseArgsBuilder where
  database : Option String
deriving Repr, DecidableEq

/-- derive_builder `build()` for `CreateDatabaseArgs`: fails on the first
uninitialized required field. -/
def CreateDatabaseArgsBuilder.build (b : CreateDatabaseArgsBuilder) :
    Except BuilderError CreateDatabaseArgs :=
  match b.database with
  | none => Except.error (BuilderError.uninitializedField "database")
  | some d => Except.ok { database := d }

/-- derive_builder state for `DropTableArgs`. -/
structure DropTableArgsBuilder where
  database : Option String
  table : Option String
deriving Repr, DecidableEq

/-- derive_builder `build()` for `DropTableArgs`. -/
def DropTableArgsBuilder.build (b : DropTableArgsBuilder) :
    Except BuilderError DropTableArgs :=
  match b.database with
  | none => Except.error (BuilderError.uninitializedField "database")
  | some d =>
    match b.table with
    | none => Except.error (BuilderError.uninitializedField "table")
    | some t => Except.ok { database := d, table := t }

/-- derive_builder state for `RebuildIndexArgs`. -/
structure RebuildIndexArgsBuilder where
  database : Option String
  table : Option String
  index_name : Option String
deriving Repr, DecidableEq

/-- derive_builder `build()` for `RebuildIndexArgs`. -/
def RebuildIndexArgsBuilder.build (b : RebuildIndexArgsBuilder) :
    Except BuilderError RebuildIndexArgs :=
  match b.database with
  | none => Except.error (BuilderError.uninitializedField "database")
  | some d =>
    match b.table with
    | none => Except.error (BuilderError.uninitializedField "table")
    | some t =>
      match b.index_name with
      | none => Except.error (BuilderError.uninitializedField "index_name")
      | some i => Except.ok { database := d, table := t, index_name := i }

/-- derive_builder state for `DeleteIndexArgs`. -/
structure DeleteIndexArgsBuilder where
  database : Option String
  table : Option String
  index_name : Option String
deriving Repr, DecidableEq

/-- derive_builder `build()` for `DeleteIndexArgs`. -/
def DeleteIndexArgsBuilder.build (b : DeleteIndexArgsBuilder) :
    Except BuilderError DeleteIndexArgs :=
  match b.database with
  | none => Except.error (BuilderError.uninitializedField "database")
  | some d =>
    match b.table with
    | none => Except.error (BuilderError.uninitializedField "table")
    | some t =>
      match b.index_name with
      | none => Except.error (BuilderError.uninitializedField "index_name")
      | some i => Except.ok { database := d, table := t, index_name := i }

/-- src/error.rs lines 65-69: `From<CreateDatabaseArgsBuilderError> for SdkError`
wraps the builder error as `OtherError` (via anyhow). -/
def SdkError.fromCreateDatabaseArgsBuilderError (e : BuilderError) : SdkError :=
  SdkError.OtherError e.message

/-- src/error.rs lines 83-87: `From<DropTableArgsBuilderError> for SdkError`. -/
def SdkError.fromDropTableArgsBuilderError (e : BuilderError) : SdkError :=
  SdkError.OtherError e.message

/-- src/error.rs lines 113-117: `From<RebuildIndexArgsBuilderError> for SdkError`. -/
def SdkError.fromRebuildIndexArgsBuilderError (e : BuilderError) : SdkError :=
  SdkError.OtherError e.message

/-- src/error.rs lines 119-123: `From<DeleteIndexArgsBuilderError> for SdkError`. -/
def SdkError.fromDeleteIndexArgsBuilderError (e : BuilderError) : SdkError :=
  SdkError.OtherError e.message

/-- The local (pre-network) stage of `MochowClient::create_database` generalized
over the builder state: build the args (converting a builder error through the
`From` impl in src/error.rs), then form the REST request that would be sent. -/
def createDatabaseLocal (b : CreateDatabaseArgsBuilder)
    (config : ClientConfiguration) : Except SdkError RestRequest :=
  match b.build with
  | Except.error e => Except.error (SdkError.fromCreateDatabaseArgsBuilderError e)
  | Except.ok args => Except.ok (args.into_request config)

/-- The local (pre-network) stage of `MochowClient::drop_table` generalized over
the builder state. -/
def dropTableLocal (b : DropTableArgsBuilder)
    (config : ClientConfiguration) : Except SdkError RestRequest :=
  match b.build with
  | Except.error e => Except.error (SdkError.fromDropTableArgsBuilderError e)
  | Except.ok args => Except.ok (args.into_request config)

/-- The local (pre-network) stage of `MochowClient::rebuild_index` generalized
over the builder state. -/
def rebuildIndexLocal (b : RebuildIndexArgsBuilder)
    (config : ClientConfiguration) : Except SdkError RestRequest :=
  match b.build with
  | Except.error e => Except.error (SdkError.fromRebuildIndexArgsBuilderError e)
  | Except.ok args => Except.ok (args.into_request config)

/-- The local (pre-network) stage of `MochowClient::delete_index` generalized
over the builder state. -/
def deleteIndexLocal (b : DeleteIndexArgsBuilder)
    (config : ClientConfiguration) : Except SdkError RestRequest :=
  match b.build with
  | Except.error e => Except.error (SdkError.fromDeleteIndexArgsBuilderError e)
  | Except.ok args => Except.ok (args.into_request config)

/-- An HTTP response as seen by `send_and_log`: status code, the optional
`Request-ID` header value, and the body (`none` models a body that is not
valid JSON at all). -/
structure HttpResponse where
  status : Nat
  request_id_header : Option String
  body : Option Json
deriving Repr

/-- serde decode of a JSON value into an i32 (with the i32 range check). -/
def Json.asI32 : Json → Except String Int
  | Json.int n =>
    if -2147483648 ≤ n ∧ n ≤ 2147483647 then Except.ok n
    else Except.error "number out of range for i32"
  | _ => Except.error "expected an integer"

/-- serde decode of a JSON value into a u32. -/
def Json.asU32 : Json → Except String Nat
  | Json.int n =>
    if 0 ≤ n ∧ n ≤ 4294967295 then Except.ok n.toNat
    else Except.error "number out of range for u32"
  | _ => Except.error "expected an integer"

/-- serde decode of a JSON value into a u64. -/
def Json.asU64 : Json → Except String Nat
  | Json.int n =>
    if 0 ≤ n ∧ n ≤ 18446744073709551615 then Except.ok n.toNat
    else Except.error "number out of range for u64"
  | _ => Except.error "expected an integer"

/-- serde decode of a JSON value into an f64 (accepts integer and decimal tokens). -/
def Json.asF64 : Json → Except String Rat
  | Json.int n => Except.ok (n : Rat)
  | Json.dec q => Except.ok q
  | _ => Except.error "expected a number"

/-- serde decode of a JSON value into a String. -/
def Json.asStr : Json → Except String String
  | Json.str s => Except.ok s
  | _ => Except.error "expected a string"

/-- serde decode of a JSON value into a bool. -/
def Json.asBool : Json → Except String Bool
  | Json.bool b => Except.ok b
  | _ => Except.error "expected a boolean"

/-- serde decode of a JSON array element-wise. -/
def Json.asList {α : Type} (dec : Json → Except String α) : Json → Except String (List α)
  | Json.arr xs => xs.mapM dec
  | _ => Except.error "expected an array"

/-- Field marked `#[serde(default)]`: absent means the default value. -/
def fieldWithDefault {α : Type} (l : List (String × Json)) (key : String)
    (dec : Json → Except String α) (dflt : α) : Except String α :=
  match Json.lookup key l with
  | none => Except.ok dflt
  | some j => dec j

/-- Field with no default: absent is an error. -/
def requiredField {α : Type} (l : List (String × Json)) (key : String)
    (dec : Json → Except String α) : Except String α :=
  match Json.lookup key l with
  | none => Except.error ("missing field " ++ key)
  | some j => dec j

/-- Is this JSON value `null`? -/
def Json.isNull : Json → Bool
  | Json.null => true
  | _ => false

/-- `Option` field with `#[serde(default)]`: absent or null means `none`. -/
def optionField {α : Type} (l : List (String × Json)) (key : String)
    (dec : Json → Except String α) : Except String (Option α) :=
  match Json.lookup key l with
  | none => Except.ok none
  | some j => if j.isNull then Except.ok none else (dec j).map some

/-- Serialization of an `Option` field under `skip_serializing_if = "Option::is_none"`. -/
def optEntry {α : Type} (key : String) (enc : α → Json) : Option α → List (String × Json)
  | none => []
  | some a => [(key, enc a)]

/-- serde decode of `CommonResponse` (both fields required, derived impl). -/
def decodeCommonResponse (j : Json) : Except String CommonResponse :=
  match j with
  | Json.obj l => do
    let c ← requiredField l "code" Json.asI32
    let m ← requiredField l "msg" Json.asStr
    Except.ok { code := c, msg := m }
  | _ => Except.error "expected an object"

/-- Result of `res.json::<CommonResponse>()` on the modelled response body. -/
def HttpResponse.decodeCommon (res : HttpResponse) : Except String CommonResponse :=
  match res.body with
  | none => Except.error "invalid json body"
  | some j => decodeCommonResponse j

/-- src/mochow/client.rs lines 682-714: `SendAndLog::send_and_log` for
`RequestBuilder`, modelled from the point where the HTTP response has arrived.
`is_client_error` is status 400-499, `is_server_error` is 500-599. -/
def send_and_log (res : HttpResponse) : Except SdkError HttpResponse :=
  let request_id :=
    match res.request_id_header with
    | some v => v
    | none => ""
  if (400 ≤ res.status ∧ res.status ≤ 499) ∨ (500 ≤ res.status ∧ res.status ≤ 599) then
    let msg :=
      match res.decodeCommon with
      | Except.ok m => m
      | Except.error e =>
        { code := -1, msg := "Service json error message decode failed: " ++ e }
    Except.error (SdkError.ServiceError
      { status_code := (res.status : Int)
        request_id := request_id
        server_code := ServerErrorCode.fromInt msg.code
        resp := msg })
  else
    Except.ok res

/-- src/mochow/client.rs lines 117-124: `MochowClient::create_database`,
modelled with the transport's HTTP response passed as `res`: builds the args
(`database` always set), then `send_and_log`, then decodes `CommonResponse`
(a decode failure is a reqwest error, wrapped as `OtherError` via src/error.rs). -/
def MochowClient.create_database (_client : MochowClient) (data_base : String)
    (res : HttpResponse) : Except SdkError CommonResponse :=
  match CreateDatabaseArgsBuilder.build { database := some data_base } with
  | Except.error e => Except.error (SdkError.fromCreateDatabaseArgsBuilderError e)
  | Except.ok _args =>
    match send_and_log res with
    | Except.error e => Except.error e
    | Except.ok r =>
      match r.decodeCommon with
      | Except.ok m => Except.ok m
      | Except.error e => Except.error (SdkError.OtherError ("error decoding response body: " ++ e))

/-- serde string for a `FieldType` variant (the `rename` attribute values). -/
def FieldType.serdeName : FieldType → String
  | FieldType.BOOL => "BOOL"
  | FieldType.INT8 => "INT8"
  | FieldType.UINT8 => "UINT8"
  | FieldType.Int16 => "INT16"
  | FieldType.Uint16 => "UINT16"
  | FieldType.INT32 => "INT32"
  | FieldType.UINT32 => "UINT32"
  | FieldType.INT64 => "INT64"
  | FieldType.UINT64 => "UINT64"
  | FieldType.FLOAT => "FLOAT"
  | FieldType.DOUBLE => "DOUBLE"
  | FieldType.DATE => "DATE"
  | FieldType.DATETIME => "DATETIME"
  | FieldType.TIMESTAMP => "TIMESTAMP"
  | FieldType.STRING => "STRING"
  | FieldType.BINARY => "BINARY"
  | FieldType.UUID => "UUID"
  | FieldType.TEXT => "TEXT"
  | FieldType.TEXT_GBK => "TEXT_GBK"
  | FieldType.TEXT_GB18030 => "TEXT_GB18030"
  | FieldType.FLOAT_VECTOR => "FLOAT_VECTOR"

/-- serde serialization of `FieldType`. -/
def encodeFieldType (t : FieldType) : Json :=
  Json.str t.serdeName

/-- serde deserialization of `FieldType`. -/
def decodeFieldType : Json → Except String FieldType
  | Json.str s =>
    match s with
    | "BOOL" => Except.ok FieldType.BOOL
    | "INT8" => Except.ok FieldType.INT8
    | "UINT8" => Except.ok FieldType.UINT8
    | "INT16" => Except.ok FieldType.Int16
    | "UINT16" => Except.ok FieldType.Uint16
    | "INT32" => Except.ok FieldType.INT32
    | "UINT32" => Except.ok FieldType.UINT32
    | "INT64" => Except.ok FieldType.INT64
    | "UINT64" => Except.ok FieldType.UINT64
    | "FLOAT" => Except.ok FieldType.FLOAT
    | "DOUBLE" => Except.ok FieldType.DOUBLE
    | "DATE" => Except.ok FieldType.DATE
    | "DATETIME" => Except.ok FieldType.DATETIME
    | "TIMESTAMP" => Except.ok FieldType.TIMESTAMP
    | "STRING" => Except.ok FieldType.STRING
    | "BINARY" => Except.ok FieldType.BINARY
    | "UUID" => Except.ok FieldType.UUID
    | "TEXT" => Except.ok FieldType.TEXT
    | "TEXT_GBK" => Except.ok FieldType.TEXT_GBK
    | "TEXT_GB18030" => Except.ok FieldType.TEXT_GB18030
    | "FLOAT_VECTOR" => Except.ok FieldType.FLOAT_VECTOR
    | _ => Except.error "unknown variant of FieldType"
  | _ => Except.error "expected a string"

/-- serde string for an `IndexType` variant (`SECONDARY_INDEX` renames to "SECONDARY"). -/
def IndexType.serdeName : IndexType → String
  | IndexType.FLAT => "FLAT"
  | IndexType.HNSW => "HNSW"
  | IndexType.HNSWPQ => "HNSWPQ"
  | IndexType.PUCK => "PUCK"
  | IndexType.SECONDARY_INDEX => "SECONDARY"

/-- serde serialization of `IndexType`. -/
def encodeIndexType (t : IndexType) : Json :=
  Json.str t.serdeName

/-- serde deserialization of `IndexType`. -/
def decodeIndexType : Json → Except String IndexType
  | Json.str s =>
    match s with
    | "FLAT" => Except.ok IndexType.FLAT
    | "HNSW" => Except.ok IndexType.HNSW
    | "HNSWPQ" => Except.ok IndexType.HNSWPQ
    | "PUCK" => Except.ok IndexType.PUCK
    | "SECONDARY" => Except.ok IndexType.SECONDARY_INDEX
    | _ => Except.error "unknown variant of IndexType"
  | _ => Except.error "expected a string"

/-- serde string for a `MetricType` variant. -/
def MetricType.serdeName : MetricType → String
  | MetricType.L2 => "L2"
  | MetricType.IP => "IP"
  | MetricType.COSINE => "COSINE"

/-- serde serialization of `MetricType`. -/
def encodeMetricType (t : MetricType) : Json :=
  Json.str t.serdeName

/-- serde deserialization of `MetricType`. -/
def decodeMetricType : Json → Except String MetricType
  | Json.str s =>
    match s with
    | "L2" => Except.ok MetricType.L2
    | "IP" => Except.ok MetricType.IP
    | "COSINE" => Except.ok MetricType.COSINE
    | _ => Except.error "unknown variant of MetricType"
  | _ => Except.error "expected a string"

/-- serde string for an `IndexState` variant. -/
def IndexState.serdeName : IndexState → String
  | IndexState.INVALID => "INVALID"
  | IndexState.BUILDING => "BUILDING"
  | IndexState.NORMAL => "NORMAL"

/-- serde serialization of `IndexState`. -/
def encodeIndexState (t : IndexState) : Json :=
  Json.str t.serdeName

/-- serde deserialization of `IndexState`. -/
def decodeIndexState : Json → Except String IndexState
  | Json.str s =>
    match s with
    | "INVALID" => Except.ok IndexState.INVALID
    | "BUILDING" => Except.ok IndexState.BUILDING
    | "NORMAL" => Except.ok IndexState.NORMAL
    | _ => Except.error "unknown variant of IndexState"
  | _ => Except.error "expected a string"

/-- serde string for an `AutoBuildPolicyType` variant (its `rename` value). -/
def AutoBuildPolicyType.serdeName : AutoBuildPolicyType → String
  | AutoBuildPolicyType.TIMING => "TIMING"
  | AutoBuildPolicyType.PERIODICAL => "PERIODICAL"
  | AutoBuildPolicyType.ROW_COUNT_INCREMENT => "ROW_COUNT_INCREMENT"

/-- serde serialization of `AutoBuildPolicyType`. -/
def encodeAutoBuildPolicyType (t : AutoBuildPolicyType) : Json :=
  Json.str t.serdeName

/-- serde deserialization of `AutoBuildPolicyType` (renames plus lowercase aliases). -/
def decodeAutoBuildPolicyType : Json → Except String AutoBuildPolicyType
  | Json.str s =>
    match s with
    | "TIMING" => Except.ok AutoBuildPolicyType.TIMING
    | "timing" => Except.ok AutoBuildPolicyType.TIMING
    | "PERIODICAL" => Except.ok AutoBuildPolicyType.PERIODICAL
    | "periodical" => Except.ok AutoBuildPolicyType.PERIODICAL
    | "ROW_COUNT_INCREMENT" => Except.ok AutoBuildPolicyType.ROW_COUNT_INCREMENT
    | "row_count_increment" => Except.ok AutoBuildPolicyType.ROW_COUNT_INCREMENT
    | _ => Except.error "unknown variant of AutoBuildPolicyType"
  | _ => Except.error "expected a string"

/-- serde serialization of `HNSWIndexParam` (renames `M`, `efConstruction`). -/
def encodeHNSWIndexParam (p : HNSWIndexParam) : Json :=
  Json.obj [("M", Json.int (p.m : Int)), ("efConstruction", Json.int (p.ef_construction : Int))]

/-- serde deserialization of `HNSWIndexParam`: both fields required. -/
def decodeHNSWIndexParam : Json → Except String HNSWIndexParam
  | Json.obj l => do
    let m ← requiredField l "M" Json.asU32
    let ef ← requiredField l "efConstruction" Json.asU32
    Except.ok { m := m, ef_construction := ef }
  | _ => Except.error "expected an object"

/-- serde serialization of `HNSWPQIndexParam`. -/
def encodeHNSWPQIndexParam (p : HNSWPQIndexParam) : Json :=
  Json.obj
    [("M", Json.int (p.m : Int)),
     ("efConstruction", Json.int (p.ef_construction : Int)),
     ("NSQ", Json.int (p.nsq : Int)),
     ("sampleRate", Json.dec p.sample_rate)]

/-- serde deserialization of `HNSWPQIndexParam`: all four fields required. -/
def decodeHNSWPQIndexParam : Json → Except String HNSWPQIndexParam
  | Json.obj l => do
    let m ← requiredField l "M" Json.asU32
    let ef ← requiredField l "efConstruction" Json.asU32
    let nsq ← requiredField l "NSQ" Json.asU32
    let sr ← requiredField l "sampleRate" Json.asF64
    Except.ok { m := m, ef_construction := ef, nsq := nsq, sample_rate := sr }
  | _ => Except.error "expected an object"

/-- serde serialization of `PUCKIndexParam`. -/
def encodePUCKIndexParam (p : PUCKIndexParam) : Json :=
  Json.obj
    [("coarseClusterCount", Json.int (p.coarse_cluster_count : Int)),
     ("fineClusterCount", Json.int (p.fine_cluster_count : Int))]

/-- serde deserialization of `PUCKIndexParam`: both fields required. -/
def decodePUCKIndexParam : Json → Except String PUCKIndexParam
  | Json.obj l => do
    let c ← requiredField l "coarseClusterCount" Json.asU32
    let f ← requiredField l "fineClusterCount" Json.asU32
    Except.ok { coarse_cluster_count := c, fine_cluster_count := f }
  | _ => Except.error "expected an object"

/-- serde serialization of the untagged `VectorIndexParams`: the variant's own
object, with no discriminator key. -/
def encodeVectorIndexParams : VectorIndexParams → Json
  | VectorIndexParams.HNSWPQ p => encodeHNSWPQIndexParam p
  | VectorIndexParams.HNSW p => encodeHNSWIndexParam p
  | VectorIndexParams.PUCK p => encodePUCKIndexParam p

/-- serde deserialization of the untagged `VectorIndexParams`: the variants are
tried in declaration order (HNSWPQ, HNSW, PUCK); the first that accepts the
value wins. -/
def decodeVectorIndexParams (j : Json) : Except String VectorIndexParams :=
  match decodeHNSWPQIndexParam j with
  | Except.ok p => Except.ok (VectorIndexParams.HNSWPQ p)
  | Except.error _ =>
    match decodeHNSWIndexParam j with
    | Except.ok p => Except.ok (VectorIndexParams.HNSW p)
    | Except.error _ =>
      match decodePUCKIndexParam j with
      | Except.ok p => Except.ok (VectorIndexParams.PUCK p)
      | Except.error _ =>
        Except.error "data did not match any variant of untagged enum VectorIndexParams"

/-- serde serialization of `AutoBuildPolicy`: `policyType` skipped when none,
`timing` skipped when empty, the counters and the ratio always emitted. -/
def encodeAutoBuildPolicy (p : AutoBuildPolicy) : Json :=
  Json.obj
    (optEntry "policyType" encodeAutoBuildPolicyType p.policy_type
      ++ (if p.timing = "" then [] else [("timing", Json.str p.timing)])
      ++ [("periodInSecond", Json.int (p.period_in_second : Int)),
          ("rowCountIncrement", Json.int (p.row_count_increment : Int)),
          ("rowCountIncrementRatio", Json.dec p.row_count_increment_ratio)])

/-- serde deserialization of `AutoBuildPolicy`: every field carries
`#[serde(default)]`. -/
def decodeAutoBuildPolicy : Json → Except String AutoBuildPolicy
  | Json.obj l => do
    let pt ← optionField l "policyType" decodeAutoBuildPolicyType
    let timing ← fieldWithDefault l "timing" Json.asStr ""
    let pis ← fieldWithDefault l "periodInSecond" Json.asU64 0
    let rci ← fieldWithDefault l "rowCountIncrement" Json.asU64 0
    let ratio ← fieldWithDefault l "rowCountIncrementRatio" Json.asF64 0
    Except.ok
      { policy_type := pt
        timing := timing
        period_in_second := pis
        row_count_increment := rci
        row_count_increment_ratio := ratio }
  | _ => Except.error "expected an object"

/-- serde serialization of `FieldSchema` (field order follows the struct;
`dimension` skipped when none). -/
def encodeFieldSchema (f : FieldSchema) : Json :=
  Json.obj
    ([("fieldName", Json.str f.field_name),
      ("fieldType", encodeFieldType f.field_type),
      ("primaryKey", Json.bool f.primary_key),
      ("partitionKey", Json.bool f.partition_key),
      ("autoIncrement", Json.bool f.auto_increment),
      ("notNull", Json.bool f.not_null)]
      ++ optEntry "dimension" (fun d => Json.int (d : Int)) f.dimension)

/-- serde deserialization of `FieldSchema`: `fieldType` required, the rest default. -/
def decodeFieldSchema : Json → Except String FieldSchema
  | Json.obj l => do
    let name ← fieldWithDefault l "fieldName" Json.asStr ""
    let ty ← requiredField l "fieldType" decodeFieldType
    let pk ← fieldWithDefault l "primaryKey" Json.asBool false
    let pak ← fieldWithDefault l "partitionKey" Json.asBool false
    let ai ← fieldWithDefault l "autoIncrement" Json.asBool false
    let nn ← fieldWithDefault l "notNull" Json.asBool false
    let dim ← optionField l "dimension" Json.asU32
    Except.ok
      { field_name := name
        field_type := ty
        primary_key := pk
        partition_key := pak
        auto_increment := ai
        not_null := nn
        dimension := dim }
  | _ => Except.error "expected an object"

/-- serde serialization of `IndexSchema` (struct field order): `state` carries
`skip_serializing` and is never emitted; `indexMajorVersion` carries
`skip_serializing_if = "Option::is_none"` and is emitted when present. -/
def encodeIndexSchema (i : IndexSchema) : Json :=
  Json.obj
    ([("indexName", Json.str i.index_name)]
      ++ optEntry "indexType" encodeIndexType i.index_type
      ++ optEntry "metricType" encodeMetricType i.metric_type
      ++ optEntry "params" encodeVectorIndexParams i.params
      ++ [("field", Json.str i.field), ("autoBuild", Json.bool i.auto_build)]
      ++ optEntry "autoBuildPolicy" encodeAutoBuildPolicy i.auto_build_policy
      ++ optEntry "indexMajorVersion" (fun v => Json.int (v : Int)) i.index_major_version)

/-- serde deserialization of `IndexSchema`: `field` is the only field without a
default; `state` defaults to none and is filled only from server responses. -/
def decodeIndexSchema : Json → Except String IndexSchema
  | Json.obj l => do
    let name ← fieldWithDefault l "indexName" Json.asStr ""
    let ity ← optionField l "indexType" decodeIndexType
    let mty ← optionField l "metricType" decodeMetricType
    let params ← optionField l "params" decodeVectorIndexParams
    let field ← requiredField l "field" Json.asStr
    let ab ← fieldWithDefault l "autoBuild" Json.asBool false
    let st ← optionField l "state" decodeIndexState
    let abp ← optionField l "autoBuildPolicy" decodeAutoBuildPolicy
    let imv ← optionField l "indexMajorVersion" Json.asU64
    Except.ok
      { index_name := name
        index_type := ity
        metric_type := mty
        params := params
        field := field
        auto_build := ab
        state := st
        auto_build_policy := abp
        index_major_version := imv }
  | _ => Except.error "expected an object"

/-- serde serialization of `TableSchema`. -/
def encodeTableSchema (t : TableSchema) : Json :=
  Json.obj
    [("fields", Json.arr (t.fields.map encodeFieldSchema)),
     ("indexes", Json.arr (t.indexes.map encodeIndexSchema))]

/-- serde deserialization of `TableSchema`: both lists carry `#[serde(default)]`. -/
def decodeTableSchema : Json → Except String TableSchema
  | Json.obj l => do
    let fs ← fieldWithDefault l "fields" (Json.asList decodeFieldSchema) []
    let is ← fieldWithDefault l "indexes" (Json.asList decodeIndexSchema) []
    Except.ok { fields := fs, indexes := is }
  | _ => Except.error "expected an object"

/-- Range invariant of the Rust u32 fields of `HNSWIndexParam`. -/
def HNSWIndexParam.wf (p : HNSWIndexParam) : Prop :=
  p.m ≤ 4294967295 ∧ p.ef_construction ≤ 4294967295

/-- Range invariant of the Rust machine-integer fields of `HNSWPQIndexParam`. -/
def HNSWPQIndexParam.wf (p : HNSWPQIndexParam) : Prop :=
  p.m ≤ 4294967295 ∧ p.ef_construction ≤ 4294967295 ∧ p.nsq ≤ 4294967295

/-- Range invariant of the Rust u32 fields of `PUCKIndexParam`. -/
def PUCKIndexParam.wf (p : PUCKIndexParam) : Prop :=
  p.coarse_cluster_count ≤ 4294967295 ∧ p.fine_cluster_count ≤ 4294967295

/-- Range invariant of a `VectorIndexParams` value. -/
def VectorIndexParams.wf : VectorIndexParams → Prop
  | VectorIndexParams.HNSWPQ p => p.wf
  | VectorIndexParams.HNSW p => p.wf
  | VectorIndexParams.PUCK p => p.wf

/-- Range invariant of the Rust u64 fields of `AutoBuildPolicy`. -/
def AutoBuildPolicy.wf (p : AutoBuildPolicy) : Prop :=
  p.period_in_second ≤ 18446744073709551615 ∧ p.row_count_increment ≤ 18446744073709551615

/-- Range invariant of a `FieldSchema` value (u32 dimension). -/
def FieldSchema.wf (f : FieldSchema) : Prop :=
  ∀ d ∈ f.dimension, d ≤ 4294967295

/-- Range invariant of an `IndexSchema` value. -/
def IndexSchema.wf (i : IndexSchema) : Prop :=
  (∀ p ∈ i.params, p.wf) ∧ (∀ p ∈ i.auto_build_policy, p.wf)
    ∧ (∀ v ∈ i.index_major_version, v ≤ 18446744073709551615)

/-- Range invariant of a `TableSchema` value: every contained Rust machine
integer is within its type's range (automatic for any real Rust value). -/
def TableSchema.wf (t : TableSchema) : Prop :=
  (∀ f ∈ t.fields, f.wf) ∧ (∀ i ∈ t.indexes, i.wf)

/-- The exact domain of the named (non-UNKNOWN) entries of the
`From<i32> for ServerErrorCode` lookup: 1, 2, 10-13, 20-25, 50-53, 60-74,
80-82, 90-94, 100-101. -/
def listedServerCode (n : Int) : Prop :=
  n = 1 ∨ n = 2 ∨ (10 ≤ n ∧ n ≤ 13) ∨ (20 ≤ n ∧ n ≤ 25) ∨ (50 ≤ n ∧ n ≤ 53)
    ∨ (60 ≤ n ∧ n ≤ 74) ∨ (80 ≤ n ∧ n ≤ 82) ∨ (90 ≤ n ∧ n ≤ 94) ∨ (100 ≤ n ∧ n ≤ 101)

/-- A concrete client configuration used to instantiate general theorems. -/
def cfg0 : ClientConfiguration :=
  { account := "account"
    api_key := "api_key"
    endpoint := "http://127.0.0.1:5287"
    version := "v1"
    time_out_seconds := 30
    max_retries := 3
    user_agent := "" }

/-- A concrete client used to instantiate general theorems. -/
def client0 : MochowClient :=
  { credential :=
      { account := "account", api_key := "api_key"
        token := "account=account&api_key=api_key" }
    configuration := cfg0 }

/-- A concrete HTTP 400 response with the documented "database already exists"
error envelope. -/
def res400 : HttpResponse :=
  { status := 400
    request_id_header := some "req-123"
    body := some (Json.obj [("code", Json.int 51), ("msg", Json.str "Database Already Exists")]) }

/-- A concrete HTTP 500 response whose body is not valid JSON. -/
def res500 : HttpResponse :=
  { status := 500, request_id_header := none, body := none }

/-- A concrete HTTP 400 response whose error envelope carries code 0. -/
def res400zero : HttpResponse :=
  { status := 400
    request_id_header := none
    body := some (Json.obj [("code", Json.int 0), ("msg", Json.str "Success")]) }

/-- A concrete table schema with two fields and two indexes. -/
def ts0 : TableSchema :=
  { fields :=
      [{ field_name := "id", field_type := FieldType.STRING, primary_key := true
         partition_key := true, auto_increment := false, not_null := true, dimension := none },
       { field_name := "vector", field_type := FieldType.FLOAT_VECTOR, primary_key := false
         partition_key := false, auto_increment := false, not_null := true, dimension := some 3 }]
    indexes :=
      [{ index_name := "vector_idx", index_type := some IndexType.HNSW
         metric_type := some MetricType.L2
         params := some (VectorIndexParams.HNSW { m := 32, ef_construction := 200 })
         field := "vector", auto_build := false, state := some IndexState.NORMAL
         auto_build_policy := none, index_major_version := some 1 },
       { index_name := "book_name_idx", index_type := some IndexType.SECONDARY_INDEX
         metric_type := none, params := none, field := "bookName", auto_build := false
         state := none, auto_build_policy := none, index_major_version := none }] }

/-- Reduction of bind on an `ok` value of `Except`. -/
theorem exceptBind_ok {ε α β : Type} (a : α) (f : α → Except ε β) :
    (Except.ok a : Except ε α) >>= f = f a := rfl

/-- Reduction of bind on an `error` value of `Except`. -/
theorem exceptBind_err {ε α β : Type} (e : ε) (f : α → Except ε β) :
    (Except.error e : Except ε α) >>= f = Except.error e := rfl

/-- Enum round trip for `FieldType`. -/
theorem decode_encode_fieldType (t : FieldType) :
    decodeFieldType (encodeFieldType t) = Except.ok t := by
  cases t <;> rfl

/-- u32 decode accepts any encoded in-range u32. -/
theorem asU32_encode (d : Nat) (h : d ≤ 4294967295) :
    Json.asU32 (Json.int (d : Int)) = Except.ok d := by
  simp only [Json.asU32]
  rw [if_pos]
  · simp
  · exact ⟨Int.natCast_nonneg d, by omega⟩

/-- u64 decode accepts any encoded in-range u64. -/
theorem asU64_encode (d : Nat) (h : d ≤ 18446744073709551615) :
    Json.asU64 (Json.int (d : Int)) = Except.ok d := by
  simp only [Json.asU64]
  rw [if_pos]
  · simp
  · exact ⟨Int.natCast_nonneg d, by omega⟩

/-- f64 decode inverts f64 encode. -/
theorem asF64_dec (q : Rat) : Json.asF64 (Json.dec q) = Except.ok q := rfl

/-- Struct round trip for `FieldSchema`. -/
theorem decode_encode_fieldSchema (f : FieldSchema) (h : f.wf) :
    decodeFieldSchema (encodeFieldSchema f) = Except.ok f := by
  obtain ⟨name, ty, pk, pak, ai, nn, dim⟩ := f
  cases dim with
  | none =>
    simp [encodeFieldSchema, decodeFieldSchema, optEntry, fieldWithDefault, requiredField,
      optionField, Json.lookup, decode_encode_fieldType, Json.asStr, Json.asBool, exceptBind_ok]
  | some d =>
    have hd : d ≤ 4294967295 := h d (by simp)
    simp [encodeFieldSchema, decodeFieldSchema, optEntry, fieldWithDefault, requiredField,
      optionField, Json.lookup, decode_encode_fieldType, Json.asStr, Json.asBool,
      asU32_encode d hd, exceptBind_ok, Except.map, Json.isNull]

/-- Enum round trip for `AutoBuildPolicyType`. -/
theorem decode_encode_autoBuildPolicyType (t : AutoBuildPolicyType) :
    decodeAutoBuildPolicyType (encodeAutoBuildPolicyType t) = Except.ok t := by
  cases t <;> rfl

/-- Struct round trip for `AutoBuildPolicy`. -/
theorem decode_encode_autoBuildPolicy (p : AutoBuildPolicy) (h : p.wf) :
    decodeAutoBuildPolicy (encodeAutoBuildPolicy p) = Except.ok p := by
  obtain ⟨pt, timing, pis, rci, ratio⟩ := p
  obtain ⟨h1, h2⟩ := h
  cases pt with
  | none =>
    by_cases ht : timing = "" <;>
      simp [encodeAutoBuildPolicy, decodeAutoBuildPolicy, optEntry, fieldWithDefault,
        requiredField, optionField, Json.lookup, decode_encode_autoBuildPolicyType,
        Json.asStr, asF64_dec, asU64_encode _ h1, asU64_encode _ h2, exceptBind_ok,
        Except.map, Json.isNull, ht]
  | some t =>
    cases t <;> by_cases ht : timing = "" <;>
      simp [encodeAutoBuildPolicy, decodeAutoBuildPolicy, optEntry, fieldWithDefault,
        requiredField, optionField, Json.lookup, decodeAutoBuildPolicyType,
        encodeAutoBuildPolicyType, AutoBuildPolicyType.serdeName,
        Json.asStr, asF64_dec, asU64_encode _ h1, asU64_encode _ h2, exceptBind_ok,
        Except.map, Json.isNull, ht]

/-- Struct round trip for `HNSWIndexParam`. -/
theorem decode_encode_HNSWIndexParam (p : HNSWIndexParam) (h : p.wf) :
    decodeHNSWIndexParam (encodeHNSWIndexParam p) = Except.ok p := by
  obtain ⟨m, ef⟩ := p
  obtain ⟨h1, h2⟩ := h
  simp [encodeHNSWIndexParam, decodeHNSWIndexParam, requiredField, Json.lookup,
    asU32_encode _ h1, asU32_encode _ h2, exceptBind_ok]

/-- Struct round trip for `HNSWPQIndexParam`. -/
theorem decode_encode_HNSWPQIndexParam (p : HNSWPQIndexParam) (h : p.wf) :
    decodeHNSWPQIndexParam (encodeHNSWPQIndexParam p) = Except.ok p := by
  obtain ⟨m, ef, nsq, sr⟩ := p
  obtain ⟨h1, h2, h3⟩ := h
  simp [encodeHNSWPQIndexParam, decodeHNSWPQIndexParam, requiredField, Json.lookup,
    asU32_encode _ h1, asU32_encode _ h2, asU32_encode _ h3, asF64_dec, exceptBind_ok]

/-- Struct round trip for `PUCKIndexParam`. -/
theorem decode_encode_PUCKIndexParam (p : PUCKIndexParam) (h : p.wf) :
    decodePUCKIndexParam (encodePUCKIndexParam p) = Except.ok p := by
  obtain ⟨c, f⟩ := p
  obtain ⟨h1, h2⟩ := h
  simp [encodePUCKIndexParam, decodePUCKIndexParam, requiredField, Json.lookup,
    asU32_encode _ h1, asU32_encode _ h2, exceptBind_ok]

/-- Untagged round trip for `VectorIndexParams`: the first variant whose
required fields are all present wins, which is the encoded variant. -/
theorem decode_encode_vectorIndexParams (p : VectorIndexParams) (h : p.wf) :
    decodeVectorIndexParams (encodeVectorIndexParams p) = Except.ok p := by
  cases p with
  | HNSWPQ q =>
    simp [encodeVectorIndexParams, decodeVectorIndexParams,
      decode_encode_HNSWPQIndexParam q h]
  | HNSW q =>
    obtain ⟨m, ef⟩ := q
    obtain ⟨h1, h2⟩ := h
    have hfail : decodeHNSWPQIndexParam (encodeHNSWIndexParam ⟨m, ef⟩)
        = Except.error "missing field NSQ" := by
      simp [encodeHNSWIndexParam, decodeHNSWPQIndexParam, requiredField, Json.lookup,
        asU32_encode _ h1, asU32_encode _ h2, exceptBind_ok, exceptBind_err]
    simp [encodeVectorIndexParams, decodeVectorIndexParams, hfail,
      decode_encode_HNSWIndexParam ⟨m, ef⟩ ⟨h1, h2⟩]
  | PUCK q =>
    have hfail1 : decodeHNSWPQIndexParam (encodePUCKIndexParam q)
        = Except.error "missing field M" := by
      obtain ⟨c, f⟩ := q
      simp [encodePUCKIndexParam, decodeHNSWPQIndexParam, requiredField, Json.lookup,
        exceptBind_err]
    have hfail2 : decodeHNSWIndexParam (encodePUCKIndexParam q)
        = Except.error "missing field M" := by
      obtain ⟨c, f⟩ := q
      simp [encodePUCKIndexParam, decodeHNSWIndexParam, requiredField, Json.lookup,
        exceptBind_err]
    simp [encodeVectorIndexParams, decodeVectorIndexParams, hfail1, hfail2,
      decode_encode_PUCKIndexParam q h]

/-- Enum round trip for `IndexType` through its serde name. -/
theorem decode_serdeName_indexType (t : IndexType) :
    decodeIndexType (Json.str t.serdeName) = Except.ok t := by
  cases t <;> rfl

/-- Enum round trip for `MetricType` through its serde name. -/
theorem decode_serdeName_metricType (t : MetricType) :
    decodeMetricType (Json.str t.serdeName) = Except.ok t := by
  cases t <;> rfl

/-- A string value is not null. -/
theorem isNull_str (s : String) : (Json.str s).isNull = false := rfl

/-- An integer value is not null. -/
theorem isNull_int (n : Int) : (Json.int n).isNull = false := rfl

/-- An object value is not null. -/
theorem isNull_obj (l : List (String × Json)) : (Json.obj l).isNull = false := rfl

/-- Serialized vector index params are never null. -/
theorem encodeVectorIndexParams_isNull (p : VectorIndexParams) :
    (encodeVectorIndexParams p).isNull = false := by
  cases p <;> rfl

/-- A serialized auto-build policy is never null. -/
theorem encodeAutoBuildPolicy_isNull (p : AutoBuildPolicy) :
    (encodeAutoBuildPolicy p).isNull = false := rfl

/-- Struct round trip for `IndexSchema`: every field survives except `state`,
which is never serialized and decodes to its default `none`. -/
theorem decode_encode_indexSchema (i : IndexSchema) (h : i.wf) :
    decodeIndexSchema (encodeIndexSchema i) = Except.ok { i with state := none } := by
  obtain ⟨nm, ity, mty, params, fld, ab, st, abp, imv⟩ := i
  obtain ⟨hp, habp, himv⟩ := h
  cases ity <;> cases mty <;> cases params <;> cases abp <;> cases imv <;>
    simp_all [encodeIndexSchema, decodeIndexSchema, optEntry, fieldWithDefault, requiredField,
      optionField, Json.lookup, Json.asStr, Json.asBool,
      isNull_str, isNull_int, isNull_obj,
      encodeIndexType, encodeMetricType,
      decode_serdeName_indexType, decode_serdeName_metricType,
      decode_encode_vectorIndexParams, decode_encode_autoBuildPolicy,
      encodeVectorIndexParams_isNull, encodeAutoBuildPolicy_isNull,
      asU64_encode, exceptBind_ok, Except.map]

/-- Element-wise round trip lifts through `List.mapM`. -/
theorem mapM_rt {α β : Type} (enc : α → Json) (dec : Json → Except String β) (g : α → β)
    (xs : List α) (h : ∀ x ∈ xs, dec (enc x) = Except.ok (g x)) :
    (xs.map enc).mapM dec = Except.ok (xs.map g) := by
  induction xs with
  | nil => rfl
  | cons a as ih =>
    simp only [List.map_cons, List.mapM_cons, h a (by simp), exceptBind_ok,
      ih (fun x hx => h x (by simp [hx]))]
    rfl

/-- The lookup yields UNKNOWN exactly outside the listed codes. -/
theorem fromInt_unknown_iff (n : Int) :
    ServerErrorCode.fromInt n = ServerErrorCode.UNKNOWN ↔ ¬ listedServerCode n := by
  unfold ServerErrorCode.fromInt
  split <;> simp only [listedServerCode] <;>
    first
    | decide
    | (simp only [imp_false] at *; simp; omega)

/-- `send_and_log` on an error status with a decodable envelope. -/
theorem send_and_log_decodable (res : HttpResponse) (cr : CommonResponse)
    (h1 : 400 ≤ res.status) (h2 : res.status ≤ 599)
    (hdec : res.decodeCommon = Except.ok cr) :
    send_and_log res = Except.error (SdkError.ServiceError
      { status_code := (res.status : Int)
        request_id := res.request_id_header.getD ""
        resp := cr
        server_code := ServerErrorCode.fromInt cr.code }) := by
  unfold send_and_log
  have hcond : (400 ≤ res.status ∧ res.status ≤ 499) ∨ (500 ≤ res.status ∧ res.status ≤ 599) := by
    omega
  rw [if_pos hcond]
  simp only [hdec]
  cases res.request_id_header <;> simp [Option.getD]

/-- `send_and_log` on an error status with an undecodable body. -/
theorem send_and_log_undecodable (res : HttpResponse) (e : String)
    (h1 : 400 ≤ res.status) (h2 : res.status ≤ 599)
    (hdec : res.decodeCommon = Except.error e) :
    send_and_log res = Except.error (SdkError.ServiceError
      { status_code := (res.status : Int)
        request_id := res.request_id_header.getD ""
        resp := { code := -1, msg := "Service json error message decode failed: " ++ e }
        server_code := ServerErrorCode.UNKNOWN }) := by
  unfold send_and_log
  have hcond : (400 ≤ res.status ∧ res.status ≤ 499) ∨ (500 ≤ res.status ∧ res.status ≤ 599) := by
    omega
  rw [if_pos hcond]
  simp only [hdec]
  cases res.request_id_header <;> simp [Option.getD] <;> rfl

/-- `create_database` propagates the structured service error unchanged. -/
theorem create_database_decodable (client : MochowClient) (db : String)
    (res : HttpResponse) (cr : CommonResponse)
    (h1 : 400 ≤ res.status) (h2 : res.status ≤ 599)
    (hdec : res.decodeCommon = Except.ok cr) :
    client.create_database db res = Except.error (SdkError.ServiceError
      { status_code := (res.status : Int)
        request_id := res.request_id_header.getD ""
        resp := cr
        server_code := ServerErrorCode.fromInt cr.code }) := by
  unfold MochowClient.create_database CreateDatabaseArgsBuilder.build
  simp [send_and_log_decodable res cr h1 h2 hdec]

/-- Claim C1: for every pair of non-empty strings, `Credentials::new` succeeds
and returns a token that is a fixed pure function of the two inputs (so equal
inputs give equal tokens); if either input is empty it fails with
`SdkError::ParamsError` and no Credentials value is produced. -/
theorem credentials_new_spec (account api_key : String) :
    (account ≠ "" → api_key ≠ "" →
      Credentials.new account api_key = Except.ok
        { account := account, api_key := api_key
          token := "account=" ++ account ++ "&api_key=" ++ api_key })
    ∧ ((account = "" ∨ api_key = "") →
      ∃ m, Credentials.new account api_key = Except.error (SdkError.ParamsError m)) := by
  constructor
  · intro h1 h2
    unfold Credentials.new
    rw [if_neg, if_neg]
    · simp [String.isEmpty_iff, h2]
    · simp [String.isEmpty_iff, h1]
  · intro h
    unfold Credentials.new
    rcases h with h | h
    · subst h
      exact ⟨"account should not be empty", rfl⟩
    · subst h
      by_cases ha : account = ""
      · subst ha
        exact ⟨"account should not be empty", rfl⟩
      · rw [if_neg (by simp [String.isEmpty_iff, ha])]
        rw [if_pos (by simp [String.isEmpty])]
        exact ⟨"api_key should not be empty", rfl⟩

/-- Witness for C1 at ("user", "secret") and ("", "secret"). -/
theorem credentials_new_spec_witness :
    Credentials.new "user" "secret" = Except.ok
      { account := "user", api_key := "secret", token := "account=user&api_key=secret" }
    ∧ ∃ m, Credentials.new "" "secret" = Except.error (SdkError.ParamsError m) :=
  ⟨(credentials_new_spec "user" "secret").1 (by decide) (by decide),
   (credentials_new_spec "" "secret").2 (Or.inl rfl)⟩

/-- Claim C2: for every HTTP response with a 4xx or 5xx status whose body
decodes as the error envelope, the call fails with `SdkError::ServiceError`
carrying the HTTP status, the decoded envelope, the `Request-ID` header value
(empty string if absent) and the symbolic code from the fixed lookup; this
holds both for `send_and_log` itself and through `create_database`. -/
theorem service_error_decodable (res : HttpResponse) (cr : CommonResponse)
    (h1 : 400 ≤ res.status) (h2 : res.status ≤ 599)
    (hdec : res.decodeCommon = Except.ok cr) :
    send_and_log res = Except.error (SdkError.ServiceError
      { status_code := (res.status : Int)
        request_id := res.request_id_header.getD ""
        resp := cr
        server_code := ServerErrorCode.fromInt cr.code })
    ∧ ∀ (client : MochowClient) (db : String),
        client.create_database db res = Except.error (SdkError.ServiceError
          { status_code := (res.status : Int)
            request_id := res.request_id_header.getD ""
            resp := cr
            server_code := ServerErrorCode.fromInt cr.code }) :=
  ⟨send_and_log_decodable res cr h1 h2 hdec,
   fun client db => create_database_decodable client db res cr h1 h2 hdec⟩

/-- Witness for C2: HTTP 400 with body code 51 / "Database Already Exists" on a
create-database call yields status 400, code 51, symbolic code DB_ALREADY_EXIST. -/
theorem service_error_decodable_witness :
    (400 ≤ res400.status ∧ res400.status ≤ 599
      ∧ res400.decodeCommon = Except.ok { code := 51, msg := "Database Already Exists" })
    ∧ send_and_log res400 = Except.error (SdkError.ServiceError
        { status_code := 400, request_id := "req-123"
          resp := { code := 51, msg := "Database Already Exists" }
          server_code := ServerErrorCode.DB_ALREADY_EXIST })
    ∧ client0.create_database "test_db" res400 = Except.error (SdkError.ServiceError
        { status_code := 400, request_id := "req-123"
          resp := { code := 51, msg := "Database Already Exists" }
          server_code := ServerErrorCode.DB_ALREADY_EXIST }) := by
  have h := service_error_decodable res400 { code := 51, msg := "Database Already Exists" }
    (by decide) (by decide) rfl
  exact ⟨⟨by decide, by decide, rfl⟩, h.1, h.2 client0 "test_db"⟩

/-- Claim C3 (amended): for the client operations whose args are built
internally (create_database, drop_table, rebuild_index, delete_index), a
missing required builder field makes the call fail with `SdkError::OtherError`
(wrapping the builder error, via the `From` impls in src/error.rs) before any
REST request is formed — not with `ParamsError` as the spec states. -/
theorem missing_builder_field_other_error (config : ClientConfiguration) :
    (∀ b : CreateDatabaseArgsBuilder, b.database = none →
      ∃ m, createDatabaseLocal b config = Except.error (SdkError.OtherError m))
    ∧ (∀ b : DropTableArgsBuilder, b.database = none ∨ b.table = none →
      ∃ m, dropTableLocal b config = Except.error (SdkError.OtherError m))
    ∧ (∀ b : RebuildIndexArgsBuilder,
        b.database = none ∨ b.table = none ∨ b.index_name = none →
      ∃ m, rebuildIndexLocal b config = Except.error (SdkError.OtherError m))
    ∧ (∀ b : DeleteIndexArgsBuilder,
        b.database = none ∨ b.table = none ∨ b.index_name = none →
      ∃ m, deleteIndexLocal b config = Except.error (SdkError.OtherError m)) := by
  refine ⟨fun b hb => ?_, fun b hb => ?_, fun b hb => ?_, fun b hb => ?_⟩
  · obtain ⟨d⟩ := b
    subst hb
    exact ⟨_, rfl⟩
  · obtain ⟨d, t⟩ := b
    cases d <;> cases t <;>
      simp_all [dropTableLocal, DropTableArgsBuilder.build,
        SdkError.fromDropTableArgsBuilderError, BuilderError.message]
  · obtain ⟨d, t, i⟩ := b
    cases d <;> cases t <;> cases i <;>
      simp_all [rebuildIndexLocal, RebuildIndexArgsBuilder.build,
        SdkError.fromRebuildIndexArgsBuilderError, BuilderError.message]
  · obtain ⟨d, t, i⟩ := b
    cases d <;> cases t <;> cases i <;>
      simp_all [deleteIndexLocal, DeleteIndexArgsBuilder.build,
        SdkError.fromDeleteIndexArgsBuilderError, BuilderError.message]

/-- Witness for C3 on entirely unset builders. -/
theorem missing_builder_field_other_error_witness :
    (∃ m, createDatabaseLocal { database := none } cfg0
      = Except.error (SdkError.OtherError m))
    ∧ (∃ m, dropTableLocal { database := none, table := none } cfg0
      = Except.error (SdkError.OtherError m))
    ∧ (∃ m, rebuildIndexLocal { database := none, table := none, index_name := none } cfg0
      = Except.error (SdkError.OtherError m))
    ∧ (∃ m, deleteIndexLocal { database := none, table := none, index_name := none } cfg0
      = Except.error (SdkError.OtherError m)) :=
  ⟨(missing_builder_field_other_error cfg0).1 _ rfl,
   (missing_builder_field_other_error cfg0).2.1 _ (Or.inl rfl),
   (missing_builder_field_other_error cfg0).2.2.1 _ (Or.inl rfl),
   (missing_builder_field_other_error cfg0).2.2.2 _ (Or.inl rfl)⟩

/-- Counterexample to C3 as stated: a create-database builder with the
`database` field unset fails with `OtherError`, which is not `ParamsError`. -/
theorem missing_builder_field_not_params_error :
    createDatabaseLocal { database := none } cfg0
      = Except.error (SdkError.OtherError "uninitialized field: database")
    ∧ SdkError.isParamsError (SdkError.OtherError "uninitialized field: database") = false :=
  ⟨rfl, rfl⟩

/-- Claim C4: whenever client construction succeeds, the stored endpoint is the
input unchanged if it starts with "http://" or "https://", and the input with
"http://" prepended otherwise. -/
theorem endpoint_normalization (config : ClientConfiguration)
    (h1 : config.account ≠ "") (h2 : config.api_key ≠ "") (h3 : config.endpoint ≠ "") :
    ∃ c, MochowClient.new_with_configuration config = Except.ok c ∧
      c.configuration.endpoint =
        (if starts_with config.endpoint "http://" || starts_with config.endpoint "https://" then
          config.endpoint
        else
          "http://" ++ config.endpoint) := by
  have ha : config.account.isEmpty = false := by
    rw [Bool.eq_false_iff]
    simp [String.isEmpty_iff, h1]
  have hb : config.api_key.isEmpty = false := by
    rw [Bool.eq_false_iff]
    simp [String.isEmpty_iff, h2]
  have hc : config.endpoint.isEmpty = false := by
    rw [Bool.eq_false_iff]
    simp [String.isEmpty_iff, h3]
  unfold MochowClient.new_with_configuration Credentials.new
  simp [ha, hb, hc]

/-- Witness for C4 at a scheme-less endpoint. -/
theorem endpoint_normalization_witness :
    ∃ c, MochowClient.new_with_configuration
        { account := "account", api_key := "api_key", endpoint := "127.0.0.1:5287"
          version := "v1", time_out_seconds := 30, max_retries := 3, user_agent := "" }
      = Except.ok c ∧ c.configuration.endpoint = "http://127.0.0.1:5287" := by
  obtain ⟨c, hc, he⟩ := endpoint_normalization
    { account := "account", api_key := "api_key", endpoint := "127.0.0.1:5287"
      version := "v1", time_out_seconds := 30, max_retries := 3, user_agent := "" }
    (by decide) (by decide) (by decide)
  exact ⟨c, hc, by rw [he]; decide⟩

/-- Claim C5 (amended): the request mapping uses method DELETE exactly for
DropDatabase, DropTable and DeleteIndex (with no action parameter); DeleteRow
uses POST with action parameter `delete`; every other operation uses POST with
the enumerated base path segment and action parameter. -/
theorem request_method_url_mapping (config : ClientConfiguration) :
    (∀ a : CreateDatabaseArgs, a.into_request config =
      { method := HttpMethod.POST
        url := config.endpoint ++ "/" ++ config.version ++ "/database?create" })
    ∧ (∀ a : DropDatabaseArgs, a.into_request config =
      { method := HttpMethod.DELETE
        url := config.endpoint ++ "/" ++ config.version ++ "/database" })
    ∧ (∀ a : ListDatabaseArgs, a.into_request config =
      { method := HttpMethod.POST
        url := config.endpoint ++ "/" ++ config.version ++ "/database?list" })
    ∧ (∀ a : CreateTableArgs, a.into_request config =
      { method := HttpMethod.POST
        url := config.endpoint ++ "/" ++ config.version ++ "/table?create" })
    ∧ (∀ a : DropTableArgs, a.into_request config =
      { method := HttpMethod.DELETE
        url := config.endpoint ++ "/" ++ config.version ++ "/table" })
    ∧ (∀ a : ListTableArgs, a.into_request config =
      { method := HttpMethod.POST
        url := config.endpoint ++ "/" ++ config.version ++ "/table?list" })
    ∧ (∀ a : DescriptTableArgs, a.into_request config =
      { method := HttpMethod.POST
        url := config.endpoint ++ "/" ++ config.version ++ "/table?desc" })
    ∧ (∀ a : AddFieldArgs, a.into_request config =
      { method := HttpMethod.POST
        url := config.endpoint ++ "/" ++ config.version ++ "/table?addField" })
    ∧ (∀ a : StatsTableArgs, a.into_request config =
      { method := HttpMethod.POST
        url := config.endpoint ++ "/" ++ config.version ++ "/table?stats" })
    ∧ (∀ a : AliasTableArgs, a.into_request config =
      { method := HttpMethod.POST
        url := config.endpoint ++ "/" ++ config.version ++ "/table?alias" })
    ∧ (∀ a : UnaliasTableArgs, a.into_request config =
      { method := HttpMethod.POST
        url := config.endpoint ++ "/" ++ config.version ++ "/table?unalias" })
    ∧ (∀ a : CreateIndexArgs, a.into_request config =
      { method := HttpMethod.POST
        url := config.endpoint ++ "/" ++ config.version ++ "/index?create" })
    ∧ (∀ a : DescriptIndexArgs, a.into_request config =
      { method := HttpMethod.POST
        url := config.endpoint ++ "/" ++ config.version ++ "/index?desc" })
    ∧ (∀ a : RebuildIndexArgs, a.into_request config =
      { method := HttpMethod.POST
        url := config.endpoint ++ "/" ++ config.version ++ "/index?rebuild" })
    ∧ (∀ a : DeleteIndexArgs, a.into_request config =
      { method := HttpMethod.DELETE
        url := config.endpoint ++ "/" ++ config.version ++ "/index" })
    ∧ (∀ a : ModifyIndexArgs, a.into_request config =
      { method := HttpMethod.POST
        url := config.endpoint ++ "/" ++ config.version ++ "/index?modify" })
    ∧ (∀ (T : Type) (a : InsertRowArgs T), a.into_request config =
      { method := HttpMethod.POST
        url := config.endpoint ++ "/" ++ config.version ++ "/row?insert" })
    ∧ (∀ (T : Type) (a : UpsertRowArgs T), a.into_request config =
      { method := HttpMethod.POST
        url := config.endpoint ++ "/" ++ config.version ++ "/row?upsert" })
    ∧ (∀ a : UpdateRowArgs, a.into_request config =
      { method := HttpMethod.POST
        url := config.endpoint ++ "/" ++ config.version ++ "/row?update" })
    ∧ (∀ a : DeleteRowArgs, a.into_request config =
      { method := HttpMethod.POST
        url := config.endpoint ++ "/" ++ config.version ++ "/row?delete" })
    ∧ (∀ a : QueryRowArgs, a.into_request config =
      { method := HttpMethod.POST
        url := config.endpoint ++ "/" ++ config.version ++ "/row?query" })
    ∧ (∀ a : SearchRowsArgs, a.into_request config =
      { method := HttpMethod.POST
        url := config.endpoint ++ "/" ++ config.version ++ "/row?search" })
    ∧ (∀ a : SelectRowsArgs, a.into_request config =
      { method := HttpMethod.POST
        url := config.endpoint ++ "/" ++ config.version ++ "/row?select" })
    ∧ (∀ a : BatchSearchRowsArgs, a.into_request config =
      { method := HttpMethod.POST
        url := config.endpoint ++ "/" ++ config.version ++ "/row?batchSearch" }) :=
  ⟨fun _ => rfl, fun _ => rfl, fun _ => rfl, fun _ => rfl, fun _ => rfl, fun _ => rfl,
   fun _ => rfl, fun _ => rfl, fun _ => rfl, fun _ => rfl, fun _ => rfl, fun _ => rfl,
   fun _ => rfl, fun _ => rfl, fun _ => rfl, fun _ => rfl, fun _ _ => rfl, fun _ _ => rfl,
   fun _ => rfl, fun _ => rfl, fun _ => rfl, fun _ => rfl, fun _ => rfl, fun _ => rfl⟩

/-- Counterexample to C5 as stated: the delete-row operation issues POST, not
the DELETE method. -/
theorem deleteRow_uses_POST_not_DELETE :
    (DeleteRowArgs.into_request
      { database := "db", table := "book", primary_key := none
        partition_ey := none, filter := none } cfg0).method = HttpMethod.POST
    ∧ HttpMethod.POST ≠ HttpMethod.DELETE :=
  ⟨rfl, by decide⟩

/-- Claim C6 (amended): the fixed lookup maps exactly the codes 1, 2, 10-13,
20-25, 50-53, 60-74, 80-82, 90-94 and 100-101 to named (non-UNKNOWN) symbols,
and every other integer (including 3-9 inside the spec's "1-13" range) to
UNKNOWN. -/
theorem serverErrorCode_lookup_spec (n : Int) :
    (listedServerCode n → ServerErrorCode.fromInt n ≠ ServerErrorCode.UNKNOWN)
    ∧ (¬ listedServerCode n → ServerErrorCode.fromInt n = ServerErrorCode.UNKNOWN) := by
  have h := fromInt_unknown_iff n
  exact ⟨fun hl hu => (h.mp hu) hl, fun hn => h.mpr hn⟩

/-- Witness for C6 at a listed code (51) and an unlisted one (14). -/
theorem serverErrorCode_lookup_spec_witness :
    ServerErrorCode.fromInt 51 ≠ ServerErrorCode.UNKNOWN
    ∧ ServerErrorCode.fromInt 14 = ServerErrorCode.UNKNOWN :=
  ⟨(serverErrorCode_lookup_spec 51).1 (by unfold listedServerCode; omega),
   (serverErrorCode_lookup_spec 14).2 (by unfold listedServerCode; omega)⟩

/-- Counterexample to C6 as stated: code 3 lies in the documented 1-13 range
but the lookup maps it to UNKNOWN. -/
theorem code_three_in_documented_range_maps_to_unknown :
    ((1 : Int) ≤ 3 ∧ (3 : Int) ≤ 13) ∧ ServerErrorCode.fromInt 3 = ServerErrorCode.UNKNOWN :=
  ⟨by decide, rfl⟩

/-- Claim C7: the HNSW index parameter with m = 16 and ef_construction = 200
serializes to exactly the object with keys "M" and "efConstruction" and no
discriminator, and untagged deserialization of that object reconstructs the
same HNSW variant. -/
theorem hnsw_index_param_roundtrip :
    encodeVectorIndexParams (VectorIndexParams.HNSW { m := 16, ef_construction := 200 })
      = Json.obj [("M", Json.int 16), ("efConstruction", Json.int 200)]
    ∧ decodeVectorIndexParams (Json.obj [("M", Json.int 16), ("efConstruction", Json.int 200)])
      = Except.ok (VectorIndexParams.HNSW { m := 16, ef_construction := 200 }) :=
  ⟨rfl, rfl⟩

/-- Claim C8 (amended): serializing any TableSchema and deserializing the
result yields the same schema except that each index's server-only `state` is
reset to none (it is never emitted); the index major version, when present, is
emitted and preserved by the round trip. -/
theorem tableSchema_roundtrip (t : TableSchema) (h : t.wf) :
    decodeTableSchema (encodeTableSchema t) =
      Except.ok
        { fields := t.fields
          indexes := t.indexes.map (fun i => { i with state := none }) } := by
  obtain ⟨fs, is⟩ := t
  obtain ⟨hf, hi⟩ := h
  have h1 : (fs.map encodeFieldSchema).mapM decodeFieldSchema = Except.ok (fs.map id) :=
    mapM_rt _ _ id fs (fun x hx => decode_encode_fieldSchema x (hf x hx))
  have h2 : (is.map encodeIndexSchema).mapM decodeIndexSchema
      = Except.ok (is.map (fun i => { i with state := none })) :=
    mapM_rt _ _ _ is (fun x hx => decode_encode_indexSchema x (hi x hx))
  simp only [List.mapM] at h1 h2
  simp [encodeTableSchema, decodeTableSchema, fieldWithDefault, Json.lookup, Json.asList,
    h1, h2, exceptBind_ok, List.map_id]

/-- Witness for C8 on a two-field, two-index schema. -/
theorem tableSchema_roundtrip_witness :
    ts0.wf
    ∧ decodeTableSchema (encodeTableSchema ts0) = Except.ok
        { fields := ts0.fields
          indexes := ts0.indexes.map (fun i => { i with state := none }) } := by
  have hwf : ts0.wf := by
    constructor
    · intro f hf
      simp [ts0] at hf
      rcases hf with hf | hf <;> subst hf <;> simp [FieldSchema.wf]
    · intro i hi
      simp [ts0] at hi
      rcases hi with hi | hi <;> subst hi <;>
        simp [IndexSchema.wf, VectorIndexParams.wf, HNSWIndexParam.wf]
  exact ⟨hwf, tableSchema_roundtrip ts0 hwf⟩

/-- Counterexample to C8 as stated: an IndexSchema whose index major version is
present does emit the `indexMajorVersion` key when serialized. -/
theorem indexMajorVersion_is_emitted :
    encodeIndexSchema
      { index_name := "idx", index_type := none, metric_type := none, params := none
        field := "f", auto_build := false, state := none, auto_build_policy := none
        index_major_version := some 3 }
    = Json.obj [("indexName", Json.str "idx"), ("field", Json.str "f"),
                ("autoBuild", Json.bool false), ("indexMajorVersion", Json.int 3)] := rfl

/-- Claim C9: a 4xx/5xx response whose body does not decode as the error
envelope still fails with `SdkError::ServiceError`, carrying the HTTP status
and request id and a substituted envelope with code -1, whose symbolic code is
UNKNOWN — never a transport or other error kind. -/
theorem service_error_undecodable (res : HttpResponse) (e : String)
    (h1 : 400 ≤ res.status) (h2 : res.status ≤ 599)
    (hdec : res.decodeCommon = Except.error e) :
    send_and_log res = Except.error (SdkError.ServiceError
      { status_code := (res.status : Int)
        request_id := res.request_id_header.getD ""
        resp := { code := -1, msg := "Service json error message decode failed: " ++ e }
        server_code := ServerErrorCode.UNKNOWN }) :=
  send_and_log_undecodable res e h1 h2 hdec

/-- Witness for C9 on an HTTP 500 response with a non-JSON body. -/
theorem service_error_undecodable_witness :
    (400 ≤ res500.status ∧ res500.status ≤ 599
      ∧ res500.decodeCommon = Except.error "invalid json body")
    ∧ send_and_log res500 = Except.error (SdkError.ServiceError
        { status_code := 500, request_id := ""
          resp := { code := -1
                    msg := "Service json error message decode failed: invalid json body" }
          server_code := ServerErrorCode.UNKNOWN }) :=
  ⟨⟨by decide, by decide, rfl⟩,
   service_error_undecodable res500 "invalid json body" (by decide) (by decide) rfl⟩

/-- Claim C10: the lookup maps the wire-protocol success code 0 to UNKNOWN,
the same symbol as unrecognized codes, so a ServiceError built from an
envelope with code 0 carries server_code UNKNOWN. -/
theorem code_zero_maps_to_unknown :
    ServerErrorCode.fromInt 0 = ServerErrorCode.UNKNOWN
    ∧ ∀ (res : HttpResponse) (msg : String),
        400 ≤ res.status → res.status ≤ 599 →
        res.decodeCommon = Except.ok { code := 0, msg := msg } →
        send_and_log res = Except.error (SdkError.ServiceError
          { status_code := (res.status : Int)
            request_id := res.request_id_header.getD ""
            resp := { code := 0, msg := msg }
            server_code := ServerErrorCode.UNKNOWN }) := by
  refine ⟨rfl, fun res msg h1 h2 hdec => ?_⟩
  exact send_and_log_decodable res { code := 0, msg := msg } h1 h2 hdec

/-- Witness for C10 on an HTTP 400 response whose envelope carries code 0. -/
theorem code_zero_maps_to_unknown_witness :
    ServerErrorCode.fromInt 0 = ServerErrorCode.UNKNOWN
    ∧ send_and_log res400zero = Except.error (SdkError.ServiceError
        { status_code := 400, request_id := ""
          resp := { code := 0, msg := "Success" }
          server_code := ServerErrorCode.UNKNOWN }) :=
  ⟨code_zero_maps_to_unknown.1,
   code_zero_maps_to_unknown.2 res400zero "Success" (by decide) (by decide) rfl⟩

end Mochow
